import Mathlib

/-!
Verification of the price-history ledger of the travel-quote assistant
(`src/index.tsx`). The ledger is the React state `searchHistory : StoredSearch[]`:

  * append: `setSearchHistory(prev => [...prev, newHistoryEntry].slice(-7))`
    inside `handleSearch`;
  * latest baseline price: `searchHistory.length > 0 ?
    searchHistory[searchHistory.length - 1].totalFlightPrice : null`;
  * derived series: `priceHistoryForChart = searchHistory.map((item, index, arr) => ...)`;
  * persistence: `JSON.stringify` / `JSON.parse` against browser-local storage;
  * change narration: template selection in `getEmailSummary` / `getWhatsAppSummary`.

Monetary amounts are embedded as `Int` (the reference flows only ever add and
subtract whole-number prices), timestamps as `String` (ISO-8601 strings, whose
lexicographic order agrees with chronological order).
-/

/-- One flight leg of a trip result (`interface FlightLeg`). -/
structure FlightLeg where
  «from» : String
  «to» : String
  airline : String
  departure : String
  arrival : String
  price : Int
deriving DecidableEq, Repr

/-- One hotel stay of a trip result (`interface HotelStay`). -/
structure HotelStay where
  city : String
  name : String
  days : Int
  pricePerNight : Int
  checkInDate : String
deriving DecidableEq, Repr

/-- A complete trip result (`interface TripResults`); this is the opaque
payload the ledger stores verbatim. -/
structure TripResults where
  flights : List FlightLeg
  accommodations : List HotelStay
deriving DecidableEq, Repr

/-- One ledger entry (`interface StoredSearch`): observation timestamp,
tracked reference price, and the opaque payload. -/
structure StoredSearch where
  timestamp : String
  totalFlightPrice : Int
  results : TripResults
deriving DecidableEq, Repr

/-- One derived chart/table point (`interface PriceHistoryPoint`).
`change = none` embeds the JavaScript `null` ("absent"). -/
structure PriceHistoryPoint where
  date : String
  price : Int
  change : Option Int
deriving DecidableEq, Repr

/-- JavaScript `arr.slice(-n)`: the last `min n arr.length` elements. -/
def sliceLast (l : List α) (n : Nat) : List α :=
  l.drop (l.length - n)

/-- The append operation of the ledger, from `handleSearch`:
`[...prevHistory, newHistoryEntry].slice(-7)`. -/
def appendHistory (prevHistory : List StoredSearch) (entry : StoredSearch) :
    List StoredSearch :=
  sliceLast (prevHistory ++ [entry]) 7

/-- The ledger state reached from the empty ledger by appending the given
observations in order. -/
def runAppends (entries : List StoredSearch) : List StoredSearch :=
  entries.foldl appendHistory []

/-- The pre-append baseline query of `handleSearch`:
`searchHistory.length > 0 ? searchHistory[searchHistory.length - 1].totalFlightPrice : null`. -/
def previousPrice (searchHistory : List StoredSearch) : Option Int :=
  if searchHistory.length > 0 then
    (searchHistory[searchHistory.length - 1]?).map (fun s => s.totalFlightPrice)
  else
    none

/-- The body of the `searchHistory.map((item, index, arr) => ...)` projection:
`previousPrice = index > 0 ? arr[index - 1].totalFlightPrice : null;
 change = previousPrice !== null ? item.totalFlightPrice - previousPrice : null`. -/
def toChartPoint (arr : List StoredSearch) (index : Nat) (item : StoredSearch) :
    PriceHistoryPoint :=
  let prev : Option Int :=
    if index > 0 then (arr[index - 1]?).map (fun s => s.totalFlightPrice) else none
  { date := item.timestamp
    price := item.totalFlightPrice
    change := prev.map (fun p => item.totalFlightPrice - p) }

/-- The derived series (`priceHistoryForChart` in `App`): one point per stored
observation, oldest first, each carrying its delta versus its predecessor. -/
def priceHistoryForChart (searchHistory : List StoredSearch) : List PriceHistoryPoint :=
  searchHistory.enum.map (fun p => toChartPoint searchHistory p.1 p.2)

/-- A ledger entry with an empty opaque payload, used for concrete scenarios. -/
def obsAt (ts : String) (price : Int) : StoredSearch :=
  { timestamp := ts, totalFlightPrice := price, results := { flights := [], accommodations := [] } }

-- Basic shape lemmas about the append operation.

theorem appendHistory_eq_drop (h : List StoredSearch) (e : StoredSearch) :
    appendHistory h e = (h ++ [e]).drop ((h.length + 1) - 7) := by
  simp [appendHistory, sliceLast]

theorem appendHistory_eq_drop_append (h : List StoredSearch) (e : StoredSearch) :
    appendHistory h e = h.drop ((h.length + 1) - 7) ++ [e] := by
  rw [appendHistory_eq_drop]
  exact List.drop_append_of_le_length (by omega)

theorem length_appendHistory (h : List StoredSearch) (e : StoredSearch) :
    (appendHistory h e).length = min (h.length + 1) 7 := by
  rw [appendHistory_eq_drop]
  simp
  omega

theorem getLast?_appendHistory (h : List StoredSearch) (e : StoredSearch) :
    (appendHistory h e).getLast? = some e := by
  rw [appendHistory_eq_drop_append]
  exact List.getLast?_concat _

theorem length_foldl_appendHistory (es : List StoredSearch) :
    ∀ st : List StoredSearch, st.length ≤ 7 → (es.foldl appendHistory st).length ≤ 7 := by
  induction es with
  | nil => intro st h; simpa using h
  | cons e es ih =>
    intro st h
    exact ih _ (by rw [length_appendHistory]; omega)

/-- C1. Capacity invariant: starting from the empty ledger, every sequence of
appends leaves the ledger with at most 7 entries; when the ledger already
holds 7 entries a further append removes exactly the single oldest (head)
entry; and the newest (last) entry is always the just-appended observation. -/
theorem ledger_capacity_invariant :
    (∀ entries : List StoredSearch, (runAppends entries).length ≤ 7) ∧
    (∀ (h : List StoredSearch) (e : StoredSearch),
      h.length = 7 → appendHistory h e = h.tail ++ [e]) ∧
    (∀ (h : List StoredSearch) (e : StoredSearch),
      (appendHistory h e).getLast? = some e) := by
  refine ⟨?_, ?_, ?_⟩
  · intro entries
    exact length_foldl_appendHistory entries [] (by simp)
  · intro h e hlen
    rw [appendHistory_eq_drop_append, hlen]
    norm_num [List.drop_one]
  · intro h e
    exact getLast?_appendHistory h e

/-- Concrete instantiation of `ledger_capacity_invariant`: appending an eighth
observation to a full 7-entry ledger keeps only the tail plus the new entry. -/
theorem ledger_capacity_invariant_witness :
    appendHistory [obsAt "t1" 1, obsAt "t2" 2, obsAt "t3" 3, obsAt "t4" 4,
        obsAt "t5" 5, obsAt "t6" 6, obsAt "t7" 7] (obsAt "t8" 8) =
      [obsAt "t1" 1, obsAt "t2" 2, obsAt "t3" 3, obsAt "t4" 4,
        obsAt "t5" 5, obsAt "t6" 6, obsAt "t7" 7].tail ++ [obsAt "t8" 8] :=
  ledger_capacity_invariant.2.1 _ _ (by decide)

/-- The eight observations of the reference scenario (capacity 7). -/
def scenarioEntries : List StoredSearch :=
  [obsAt "2024-01-01" 200, obsAt "2024-01-02" 180, obsAt "2024-01-03" 180,
   obsAt "2024-01-04" 250, obsAt "2024-01-05" 260, obsAt "2024-01-06" 240,
   obsAt "2024-01-07" 230, obsAt "2024-01-08" 210]

/-- C3. End-to-end scenario: appending prices
[200, 180, 180, 250, 260, 240, 230, 210] to the empty ledger leaves exactly the
last 7 prices (200 evicted), and the derived changes are
[absent, 0, +70, +10, -20, -10, -20]. -/
theorem scenario_eight_appends :
    (runAppends scenarioEntries).map (fun s => s.totalFlightPrice) =
      [180, 180, 250, 260, 240, 230, 210] ∧
    (priceHistoryForChart (runAppends scenarioEntries)).map (fun p => p.change) =
      [none, some 0, some 70, some 10, some (-20), some (-10), some (-20)] := by
  constructor <;> rfl

theorem previousPrice_eq_getLast (h : List StoredSearch) (x : StoredSearch)
    (hx : h.getLast? = some x) : previousPrice h = some x.totalFlightPrice := by
  have hne : h ≠ [] := by
    intro hnil
    rw [hnil] at hx
    simp at hx
  unfold previousPrice
  rw [if_pos (List.length_pos.mpr hne), ← List.getLast?_eq_getElem?, hx]
  rfl

/-- C5. The latest-reference-price query returns the price of the most recently
appended observation on any non-empty ledger, returns `none` on the empty
ledger, and the derived series of the empty ledger is empty. -/
theorem latestReferencePrice_correct :
    (∀ (h : List StoredSearch) (x : StoredSearch),
      h.getLast? = some x → previousPrice h = some x.totalFlightPrice) ∧
    (∀ (h : List StoredSearch) (e : StoredSearch),
      previousPrice (appendHistory h e) = some e.totalFlightPrice) ∧
    previousPrice [] = none ∧
    priceHistoryForChart [] = [] := by
  refine ⟨previousPrice_eq_getLast, ?_, rfl, rfl⟩
  intro h e
  exact previousPrice_eq_getLast _ e (getLast?_appendHistory h e)

/-- Concrete instantiation of `latestReferencePrice_correct`: on a two-entry
ledger the query returns the second (latest) price. -/
theorem latestReferencePrice_correct_witness :
    previousPrice [obsAt "t1" 5, obsAt "t2" 9] = some 9 :=
  latestReferencePrice_correct.1 _ (obsAt "t2" 9) (by decide)

theorem getElem?_priceHistoryForChart (h : List StoredSearch) (i : Nat) :
    (priceHistoryForChart h)[i]? = (h[i]?).map (toChartPoint h i) := by
  unfold priceHistoryForChart
  rw [List.getElem?_map, List.enum_eq_enumFrom, List.getElem?_enumFrom]
  cases h[i]? with
  | none => rfl
  | some a => simp

theorem length_priceHistoryForChart (h : List StoredSearch) :
    (priceHistoryForChart h).length = h.length := by
  simp [priceHistoryForChart, List.enum_eq_enumFrom]

/-- C2. Delta correctness of the derived series: one point per observation in
stored order (same length, dates and prices copied in place); the first point
has absent change; the point after index `i` carries the difference of the two
adjacent reference prices; and on prices [100, 120, 120, 90] the changes are
[absent, +20, 0, -30]. -/
theorem priceHistory_delta_correct :
    (∀ h : List StoredSearch, (priceHistoryForChart h).length = h.length) ∧
    (∀ (h : List StoredSearch) (i : Nat) (a : StoredSearch), h[i]? = some a →
      ((priceHistoryForChart h)[i]?).map (fun p => (p.date, p.price)) =
        some (a.timestamp, a.totalFlightPrice)) ∧
    (∀ (h : List StoredSearch) (x : StoredSearch), h[0]? = some x →
      ((priceHistoryForChart h)[0]?).map PriceHistoryPoint.change = some none) ∧
    (∀ (h : List StoredSearch) (i : Nat) (a b : StoredSearch),
      h[i]? = some a → h[i + 1]? = some b →
      ((priceHistoryForChart h)[i + 1]?).map PriceHistoryPoint.change =
        some (some (b.totalFlightPrice - a.totalFlightPrice))) ∧
    (priceHistoryForChart [obsAt "d1" 100, obsAt "d2" 120, obsAt "d3" 120,
        obsAt "d4" 90]).map PriceHistoryPoint.change =
      [none, some 20, some 0, some (-30)] := by
  refine ⟨length_priceHistoryForChart, ?_, ?_, ?_, rfl⟩
  · intro h i a ha
    rw [getElem?_priceHistoryForChart, ha]
    rfl
  · intro h x hx
    rw [getElem?_priceHistoryForChart, hx]
    rfl
  · intro h i a b ha hb
    rw [getElem?_priceHistoryForChart, hb]
    simp [toChartPoint, ha]

/-- Concrete instantiation of `priceHistory_delta_correct`: on a two-entry
ledger with prices 100 then 120, the second derived point's change is +20. -/
theorem priceHistory_delta_correct_witness :
    ((priceHistoryForChart [obsAt "d1" 100, obsAt "d2" 120])[0 + 1]?).map
        PriceHistoryPoint.change = some (some 20) :=
  priceHistory_delta_correct.2.2.2.1 _ 0 (obsAt "d1" 100) (obsAt "d2" 120) rfl rfl

/-- Thousands grouping of a digit string given least-significant digit first:
a separator after every third digit, as `Intl.NumberFormat('pt-BR')` does. -/
def groupChars : List Char → List Char
  | a :: b :: c :: d :: rest => a :: b :: c :: '.' :: groupChars (d :: rest)
  | l => l

/-- `formatCurrency` (pt-BR, BRL, zero fraction digits): sign, currency mark,
then the absolute amount with thousands separators. -/
def formatCurrency (amount : Int) : String :=
  let sign := if amount < 0 then "-" else ""
  let digits := (toString amount.natAbs).toList
  sign ++ "R$ " ++ String.mk (groupChars digits.reverse).reverse

/-- One rendered table cell: either a bare text span or a span with a CSS
color class. -/
inductive RenderedSpan where
  | plain (text : String)
  | classed (cssClass : String) (text : String)
deriving DecidableEq, Repr

/-- `renderChange` inside `PriceChart`: `null` renders as a dash, zero as a
formatted zero amount, and a nonzero change as a colored arrow plus the
formatted absolute amount. -/
def renderChange : Option Int → RenderedSpan
  | none => .plain "-"
  | some change =>
    if change = 0 then .plain (formatCurrency 0)
    else
      let isPositive := change > 0
      .classed (if isPositive then "price-increase" else "price-decrease")
        ((if isPositive then "↑" else "↓") ++ " " ++ formatCurrency (change.natAbs : Int))

/-- C6. Absent versus zero: the first derived point's change is `none`; a later
point whose price equals its predecessor's has change `some 0`; the two are
distinct values; and the consumer renders them differently (a dash versus a
formatted zero amount). -/
theorem absent_vs_zero_distinct :
    (∀ (h : List StoredSearch) (x : StoredSearch), h[0]? = some x →
      ((priceHistoryForChart h)[0]?).map PriceHistoryPoint.change = some none) ∧
    (∀ (h : List StoredSearch) (i : Nat) (a b : StoredSearch),
      h[i]? = some a → h[i + 1]? = some b → b.totalFlightPrice = a.totalFlightPrice →
      ((priceHistoryForChart h)[i + 1]?).map PriceHistoryPoint.change = some (some 0)) ∧
    (some (0 : Int) ≠ (none : Option Int)) ∧
    renderChange none = RenderedSpan.plain "-" ∧
    renderChange (some 0) = RenderedSpan.plain (formatCurrency 0) ∧
    renderChange none ≠ renderChange (some 0) := by
  refine ⟨?_, ?_, by decide, rfl, rfl, by decide⟩
  · intro h x hx
    rw [getElem?_priceHistoryForChart, hx]
    rfl
  · intro h i a b ha hb heq
    rw [getElem?_priceHistoryForChart, hb]
    simp [toChartPoint, ha, heq]

/-- Concrete instantiation of `absent_vs_zero_distinct`: two equal consecutive
prices yield the change `some 0` at the second point. -/
theorem absent_vs_zero_distinct_witness :
    ((priceHistoryForChart [obsAt "d1" 120, obsAt "d2" 120])[0 + 1]?).map
        PriceHistoryPoint.change = some (some 0) :=
  absent_vs_zero_distinct.2.1 _ 0 (obsAt "d1" 120) (obsAt "d2" 120) rfl rfl rfl

/-- A JSON document, the structured-text encoding the ledger persists through
(`JSON.stringify` / `JSON.parse` against browser-local storage). Object fields
keep their order, as `JSON.stringify` emits them. -/
inductive Json where
  | null
  | bool (b : Bool)
  | num (n : Int)
  | str (s : String)
  | arr (elements : List Json)
  | obj (fields : List (String × Json))

/-- The JSON document `JSON.stringify` produces for one `FlightLeg`. -/
def FlightLeg.toJson (l : FlightLeg) : Json :=
  .obj [("from", .str l.«from»), ("to", .str l.«to»), ("airline", .str l.airline),
        ("departure", .str l.departure), ("arrival", .str l.arrival),
        ("price", .num l.price)]

/-- Reading one `FlightLeg` back from its JSON document, per the shape of
`interface FlightLeg`; any other shape is a schema mismatch. -/
def FlightLeg.fromJson : Json → Option FlightLeg
  | .obj [("from", .str f), ("to", .str t), ("airline", .str a),
          ("departure", .str d), ("arrival", .str arv), ("price", .num p)] =>
    some { «from» := f, «to» := t, airline := a, departure := d, arrival := arv, price := p }
  | _ => none

/-- The JSON document `JSON.stringify` produces for one `HotelStay`. -/
def HotelStay.toJson (s : HotelStay) : Json :=
  .obj [("city", .str s.city), ("name", .str s.name), ("days", .num s.days),
        ("pricePerNight", .num s.pricePerNight), ("checkInDate", .str s.checkInDate)]

/-- Reading one `HotelStay` back from its JSON document. -/
def HotelStay.fromJson : Json → Option HotelStay
  | .obj [("city", .str c), ("name", .str n), ("days", .num d),
          ("pricePerNight", .num p), ("checkInDate", .str k)] =>
    some { city := c, name := n, days := d, pricePerNight := p, checkInDate := k }
  | _ => none

/-- Decoding every element of a JSON array, failing if any element fails. -/
def decodeList (dec : Json → Option α) : List Json → Option (List α)
  | [] => some []
  | j :: rest =>
    match dec j, decodeList dec rest with
    | some a, some l => some (a :: l)
    | _, _ => none

/-- The JSON document for the opaque `TripResults` payload. -/
def TripResults.toJson (r : TripResults) : Json :=
  .obj [("flights", .arr (r.flights.map FlightLeg.toJson)),
        ("accommodations", .arr (r.accommodations.map HotelStay.toJson))]

/-- Reading the opaque `TripResults` payload back from its JSON document. -/
def TripResults.fromJson : Json → Option TripResults
  | .obj [("flights", .arr fs), ("accommodations", .arr as)] =>
    match decodeList FlightLeg.fromJson fs, decodeList HotelStay.fromJson as with
    | some flights, some accommodations => some { flights, accommodations }
    | _, _ => none
  | _ => none

/-- The JSON document for one ledger entry (`interface StoredSearch`). -/
def StoredSearch.toJson (s : StoredSearch) : Json :=
  .obj [("timestamp", .str s.timestamp),
        ("totalFlightPrice", .num s.totalFlightPrice),
        ("results", s.results.toJson)]

/-- Reading one ledger entry back from its JSON document. -/
def StoredSearch.fromJson : Json → Option StoredSearch
  | .obj [("timestamp", .str ts), ("totalFlightPrice", .num p), ("results", r)] =>
    (TripResults.fromJson r).map
      (fun results => { timestamp := ts, totalFlightPrice := p, results })
  | _ => none

/-- The persisted blob: `JSON.stringify(updatedHistory)`, a JSON array of the
entry documents, oldest first. -/
def encodeHistory (h : List StoredSearch) : Json :=
  .arr (h.map StoredSearch.toJson)

/-- Reading a whole ledger back from its persisted blob; a non-array document
or any entry of the wrong shape is a schema mismatch. -/
def decodeHistory : Json → Option (List StoredSearch)
  | .arr entries => decodeList StoredSearch.fromJson entries
  | _ => none

theorem decodeList_map {α : Type} (dec : Json → Option α) (enc : α → Json)
    (l : List α) (hdec : ∀ x, dec (enc x) = some x) :
    decodeList dec (l.map enc) = some l := by
  induction l with
  | nil => rfl
  | cons x xs ih => simp [decodeList, hdec, ih]

theorem flightLeg_fromJson_toJson (l : FlightLeg) :
    FlightLeg.fromJson l.toJson = some l := rfl

theorem hotelStay_fromJson_toJson (s : HotelStay) :
    HotelStay.fromJson s.toJson = some s := rfl

theorem tripResults_fromJson_toJson (r : TripResults) :
    TripResults.fromJson r.toJson = some r := by
  cases r with
  | mk flights accommodations =>
    simp [TripResults.toJson, TripResults.fromJson,
      decodeList_map FlightLeg.fromJson FlightLeg.toJson flights
        (fun x => flightLeg_fromJson_toJson x),
      decodeList_map HotelStay.fromJson HotelStay.toJson accommodations
        (fun x => hotelStay_fromJson_toJson x)]

theorem storedSearch_fromJson_toJson (s : StoredSearch) :
    StoredSearch.fromJson s.toJson = some s := by
  cases s with
  | mk ts p r =>
    simp [StoredSearch.toJson, StoredSearch.fromJson, tripResults_fromJson_toJson]

theorem decodeHistory_encodeHistory (h : List StoredSearch) :
    decodeHistory (encodeHistory h) = some h := by
  simp [encodeHistory, decodeHistory,
    decodeList_map StoredSearch.fromJson StoredSearch.toJson h
      (fun x => storedSearch_fromJson_toJson x)]

/-- C4. Serialization round-trip law: decoding the encoding of any ledger
state — the empty ledger and arbitrary payloads included — reproduces the
entry sequence field-for-field. -/
theorem history_roundtrip :
    ∀ h : List StoredSearch, decodeHistory (encodeHistory h) = some h :=
  decodeHistory_encodeHistory

/-- The runtime value of the `searchHistory` state after the startup load
effect of `App`. The argument models the persisted blob after `JSON.parse`:
`none` = no stored item (`getItem` returned null, the initial `[]` state is
kept); `some none` = stored text on which `JSON.parse` throws (caught, the
item is removed, the state keeps its initial `[]`); `some (some j)` = stored
text parsing to the JSON value `j`, which `setSearchHistory` installs with no
schema validation. -/
def loadedState : Option (Option Json) → Json
  | none => .arr []
  | some none => .arr []
  | some (some j) => j

/-- Whether the render path survives the loaded state: `priceHistoryForChart`
is computed by `searchHistory.map(...)`, which throws — crashing the render —
exactly when the value is not an array. -/
def rendersWithoutCrash : Json → Bool
  | .arr _ => true
  | _ => false

/-- C7 counterexample: the persisted blob text `"{}"` is well-formed JSON but
schema-mismatched (`decodeHistory` rejects it); the load effect installs it
as the state instead of substituting the empty ledger, and the subsequent
render crashes on it. -/
theorem load_schema_mismatch_counterexample :
    decodeHistory (Json.obj []) = none ∧
    loadedState (some (some (Json.obj []))) ≠ Json.arr [] ∧
    rendersWithoutCrash (loadedState (some (some (Json.obj [])))) = false := by
  refine ⟨rfl, ?_, rfl⟩
  intro hcontra
  exact Json.noConfusion hcontra

/-- C7 amended: a missing blob and a blob on which JSON parsing throws both
leave the empty ledger without propagating an error; but a blob that parses
is installed without schema validation — in particular every faithfully
encoded ledger is reloaded verbatim and renders, while a parseable
schema-mismatched blob is not replaced by the empty ledger. -/
theorem load_recovery_amended :
    loadedState none = Json.arr [] ∧
    loadedState (some none) = Json.arr [] ∧
    (∀ j : Json, loadedState (some (some j)) = j) ∧
    (∀ h : List StoredSearch,
      decodeHistory (loadedState (some (some (encodeHistory h)))) = some h ∧
      rendersWithoutCrash (loadedState (some (some (encodeHistory h)))) = true) :=
  ⟨rfl, rfl, fun _ => rfl, fun h => ⟨decodeHistory_encodeHistory h, rfl⟩⟩

/-- The slice of the React component state that the trip-search flow touches:
the ledger, the last results, the surfaced error, and the persisted blob in
browser-local storage. -/
structure AppState where
  searchHistory : List StoredSearch
  results : Option TripResults
  errorMsg : Option String
  stored : Option Json

/-- `translations.errorDefault`. -/
def errorDefault : String :=
  "Falha ao buscar opções de viagem. Por favor, tente novamente mais tarde."

/-- `handleSearch`: clear error and results; then either the awaited
`getTripData` call throws — the catch block surfaces `err.message ||
translations.errorDefault` and nothing else happens — or it resolves to
`data`, and the flow appends the new observation to the ledger and persists
the updated ledger. The `outcome` argument is the settled result of the
awaited call; `now` is `new Date().toISOString()`. -/
def handleSearch (st : AppState) (outcome : Except String TripResults)
    (now : String) : AppState :=
  let st0 := { st with errorMsg := none, results := none }
  match outcome with
  | .error msg =>
    { st0 with errorMsg := some (if msg = "" then errorDefault else msg) }
  | .ok data =>
    let totalFlightPrice := data.flights.foldl (fun sum leg => sum + leg.price) 0
    let newHistoryEntry : StoredSearch :=
      { timestamp := now, totalFlightPrice := totalFlightPrice, results := data }
    let updatedHistory := appendHistory st0.searchHistory newHistoryEntry
    { st0 with
      results := some data
      searchHistory := updatedHistory
      stored := some (encodeHistory updatedHistory) }

/-- C8. Atomicity on upstream failure: when the trip-search call fails, the
ledger and its persisted blob are left exactly as they were and an error is
surfaced; the ledger is appended to only on the success path, with the fully
formed observation. -/
theorem upstream_failure_atomic :
    (∀ (st : AppState) (msg now : String),
      (handleSearch st (.error msg) now).searchHistory = st.searchHistory ∧
      (handleSearch st (.error msg) now).stored = st.stored ∧
      (handleSearch st (.error msg) now).errorMsg ≠ none) ∧
    (∀ (st : AppState) (data : TripResults) (now : String),
      (handleSearch st (.ok data) now).searchHistory =
        appendHistory st.searchHistory
          { timestamp := now,
            totalFlightPrice := data.flights.foldl (fun sum leg => sum + leg.price) 0,
            results := data }) := by
  constructor
  · intro st msg now
    refine ⟨rfl, rfl, ?_⟩
    simp [handleSearch]
  · intro st data now
    rfl

/-- Concrete instantiation of `upstream_failure_atomic`: a failed search on a
one-entry ledger leaves it untouched. -/
theorem upstream_failure_atomic_witness :
    (handleSearch ⟨[obsAt "t1" 5], none, none, none⟩ (.error "boom") "t2").searchHistory =
      [obsAt "t1" 5] :=
  (upstream_failure_atomic.1 ⟨[obsAt "t1" 5], none, none, none⟩ "boom" "t2").1

/-- The order invariant of the ledger: adjacent entries are non-decreasing in
their `timestamp` (ISO-8601 strings, ordered lexicographically). -/
def tsSorted (h : List StoredSearch) : Prop :=
  List.Chain' (fun a b => a.timestamp ≤ b.timestamp) h

theorem chain'_drop {α : Type} {R : α → α → Prop} {l : List α}
    (h : List.Chain' R l) (n : Nat) : List.Chain' R (l.drop n) := by
  induction n with
  | zero => simpa using h
  | succ n ih =>
    rw [← List.tail_drop]
    exact ih.tail

theorem getLast?_drop_of_ne_nil {α : Type} {l : List α} {k : Nat}
    (h : l.drop k ≠ []) : (l.drop k).getLast? = l.getLast? := by
  conv_rhs => rw [← List.take_append_drop k l]
  rw [List.getLast?_append_of_ne_nil _ h]

/-- C9. Order invariant: appending an observation whose timestamp is no
earlier than the current tail's keeps the entries non-decreasing in
timestamp, and every append leaves the surviving old entries as an untouched,
in-order suffix of the previous state followed by the new entry. -/
theorem order_invariant :
    (∀ (h : List StoredSearch) (e : StoredSearch),
      tsSorted h →
      (∀ x, h.getLast? = some x → x.timestamp ≤ e.timestamp) →
      tsSorted (appendHistory h e)) ∧
    (∀ (h : List StoredSearch) (e : StoredSearch),
      appendHistory h e = h.drop (h.length + 1 - 7) ++ [e]) := by
  refine ⟨?_, appendHistory_eq_drop_append⟩
  intro h e hs hlast
  rw [tsSorted, appendHistory_eq_drop_append, List.chain'_append]
  refine ⟨chain'_drop hs _, List.chain'_singleton _, ?_⟩
  intro x hx y hy
  simp only [List.head?_cons, Option.mem_def, Option.some.injEq] at hy
  subst hy
  have hne : h.drop (h.length + 1 - 7) ≠ [] := by
    intro hnil
    rw [hnil] at hx
    simp at hx
  exact hlast x (by rw [← getLast?_drop_of_ne_nil hne]; exact hx)

/-- Concrete instantiation of `order_invariant`: appending a not-earlier
observation to a sorted two-entry ledger stays sorted. -/
theorem order_invariant_witness :
    tsSorted (appendHistory [obsAt "t" 1, obsAt "t" 2] (obsAt "t" 3)) :=
  order_invariant.1 _ _
    (by simp [tsSorted, List.chain'_cons, obsAt])
    (by
      intro x hx
      obtain rfl : obsAt "t" 2 = x := Option.some_inj.mp hx
      exact le_refl _)

/-- The first-search narrative of `getEmailSummary` (its default
`priceAnalysisPrompt`). -/
def emailFirstSearchText : String :=
  "Esta é a primeira vez que buscamos esta viagem, então usaremos este preço como nossa referência para o futuro!"

/-- The price-analysis narrative chosen inside `getEmailSummary`. The guard in
the source is `if (previousPrice)`: the JavaScript number 0 is falsy, so a
recorded previous price of exactly 0 falls through to the first-search text,
exactly as a missing previous price does. -/
def emailPriceAnalysis (totalFlightCost : Int) : Option Int → String
  | none => emailFirstSearchText
  | some previous =>
    if previous = 0 then emailFirstSearchText
    else
      let difference := totalFlightCost - previous
      if difference > 0 then
        "Notei que o preço subiu " ++ formatCurrency difference ++
          " desde a nossa última pesquisa. Meu conselho? Vamos ficar de olho por mais um tempo, as tarifas aéreas podem ser voláteis!"
      else if difference < 0 then
        "Excelente notícia! O preço caiu " ++ formatCurrency (difference.natAbs : Int) ++
          " desde a última vez que verificamos. Esta pode ser uma ótima oportunidade para garantir sua reserva!"
      else
        "O preço permaneceu estável desde a última pesquisa. Estamos em uma boa posição para continuar monitorando sem pressa."

/-- The first-search narrative of `getWhatsAppSummary` (its default
`priceAnalysisPrompt`). -/
def whatsappFirstSearchText : String :=
  "Este é nosso ponto de partida para monitorar os preços!"

/-- The price-analysis narrative chosen inside `getWhatsAppSummary`, with the
same falsy `if (previousPrice)` guard as the e-mail variant. -/
def whatsappPriceAnalysis (totalFlightCost : Int) : Option Int → String
  | none => whatsappFirstSearchText
  | some previous =>
    if previous = 0 then whatsappFirstSearchText
    else
      let difference := totalFlightCost - previous
      if difference > 0 then
        "*Análise de Preço:* O valor subiu " ++ formatCurrency difference ++
          " desde a última busca. _Meu conselho é esperarmos um pouco para ver se as tarifas melhoram!_  صبر"
      else if difference < 0 then
        "*Análise de Preço:* Boa notícia! O valor caiu " ++ formatCurrency (difference.natAbs : Int) ++
          ". _Pode ser um ótimo momento para reservar!_ 🎉"
      else
        "*Análise de Preço:* O valor está estável. _Seguimos monitorando com calma!_ 👀"

/-- C10. Zero-baseline collapse: on any non-empty ledger whose most recent
price is exactly 0, the pre-append baseline is `some 0`, yet both summary
generators choose the first-search narrative — the very output they produce
for an empty history — because `if (previousPrice)` treats the number 0 as
falsy. -/
theorem zero_baseline_collapse :
    ∀ (h : List StoredSearch) (x : StoredSearch) (totalFlightCost : Int),
      h.getLast? = some x → x.totalFlightPrice = 0 →
      previousPrice h = some 0 ∧
      emailPriceAnalysis totalFlightCost (previousPrice h) = emailFirstSearchText ∧
      whatsappPriceAnalysis totalFlightCost (previousPrice h) = whatsappFirstSearchText ∧
      emailPriceAnalysis totalFlightCost none = emailFirstSearchText ∧
      whatsappPriceAnalysis totalFlightCost none = whatsappFirstSearchText := by
  intro h x t hx hzero
  have hp : previousPrice h = some 0 := by
    rw [previousPrice_eq_getLast h x hx, hzero]
  refine ⟨hp, ?_, ?_, rfl, rfl⟩
  · rw [hp]
    rfl
  · rw [hp]
    rfl

/-- Concrete instantiation of `zero_baseline_collapse`: a one-entry history
with price 0 yields baseline `some 0` and the first-search e-mail narrative. -/
theorem zero_baseline_collapse_witness :
    previousPrice [obsAt "t1" 0] = some 0 ∧
    emailPriceAnalysis 100 (previousPrice [obsAt "t1" 0]) = emailFirstSearchText :=
  ⟨(zero_baseline_collapse [obsAt "t1" 0] (obsAt "t1" 0) 100 rfl rfl).1,
   (zero_baseline_collapse [obsAt "t1" 0] (obsAt "t1" 0) 100 rfl rfl).2.1⟩
